import Mathlib

/-!
Shallow embedding of the entity/relationship core of the Election-API-Client
repository (src/app): the SQLAlchemy models `Entity` and `Relationship`
(src/app/models), the Pydantic schemas with their sanitizing validators
(src/app/schemas), and the endpoint logic (src/app/api/v1/endpoints).

Modelling conventions:
- UUIDs are modelled as `Nat` identifiers, timestamps as `Nat`.
- The database is a pair of row lists; each endpoint call is one atomic
  transition `DB → DB × Except ApiError α` (one transaction per call).
- SQL `SELECT ... WHERE ... ORDER BY created_at DESC OFFSET skip LIMIT limit`
  is modelled as filter, then a descending insertion sort on `created_at`,
  then `drop`/`take`.
- FastAPI `Query(ge=..., le=...)` bounds are modelled as a guard that fails
  with `ApiError.validationError` before the store is consulted.
-/

/-- Identifier of an entity row (models a UUID primary key). -/
abbrev EntityId := Nat

/-- Identifier of a relationship row (models a UUID primary key). -/
abbrev RelId := Nat

/-- Server-assigned timestamp (models DateTime values). -/
abbrev Timestamp := Nat

/-- Closed enumeration of entity types, from `EntityType` in
src/app/models/entity.py. -/
inductive EntityType where
  | person
  | organization
  | government
  | political_party
  | other
deriving DecidableEq, Repr

/-- JSON-representable metadata values. Leaf values (string, number, boolean,
null) are modelled exactly; nested arrays/objects are abstracted as an opaque
`composite` constructor, which suffices because the sanitizing validator in
src/app/schemas/entity.py only distinguishes `isinstance(value, str)` from
everything else and never looks inside non-string values. -/
inductive JsonVal where
  | str (s : String)
  | num (n : Int)
  | bool (b : Bool)
  | null
  | composite (tag : Nat)
deriving DecidableEq, Repr

/-- Metadata mapping of string keys to JSON values (a Python dict, modelled as
an association list in insertion order). -/
abbrev Metadata := List (String × JsonVal)

/-- HTML serialization of one character of text content: bleach's serializer
escapes bare ampersands and angle brackets in character data. -/
def escapeChar (c : Char) : List Char :=
  if c = '<' then ['&', 'l', 't', ';']
  else if c = '>' then ['&', 'g', 't', ';']
  else if c = '&' then ['&', 'a', 'm', 'p', ';']
  else [c]

/-- Core of the model of `bleach.clean(text, tags=[], strip=True)` as called by
the validators in src/app/schemas/entity.py. With an empty allowed-tag list and
strip=True, bleach drops every tag token (start, end, comment, doctype) but
keeps the character data between tags: in particular the text inside a
`<script>` element is NOT removed, because bleach's tokenizer converts the
disallowed start tag to empty character data and returns to the data state, so
the element body is tokenized as ordinary text. The first argument is `none`
in data state and `some acc` inside a tag token, where `acc` holds the
consumed tag text (reversed) so that an unterminated trailing tag can be
emitted as escaped text the way bleach does. Tag tokens are taken to end at
the first `>`; quoted attribute values containing `>` and comments containing
`>` are outside the modelled scope (no claim exercises them), as is the
newline bleach substitutes for stripped block-level tags (`script` is not
block-level). -/
def stripTagsGo : Option (List Char) → List Char → List Char
  | none, [] => []
  | some acc, [] => ['&', 'l', 't', ';'] ++ acc.reverse.flatMap escapeChar
  | some acc, c :: rest =>
    if c = '>' then stripTagsGo none rest
    else stripTagsGo (some (c :: acc)) rest
  | none, c :: rest =>
    if c = '<' then
      match rest with
      | [] => ['&', 'l', 't', ';']
      | d :: _ =>
        if d.isAlpha ∨ d = '/' ∨ d = '!' ∨ d = '?' then stripTagsGo (some []) rest
        else ['&', 'l', 't', ';'] ++ stripTagsGo none rest
    else escapeChar c ++ stripTagsGo none rest

/-- Model of `bleach.clean(text, tags=[], strip=True)`: strip all tag tokens,
keep (escaped) character data. -/
def bleachClean (s : String) : String :=
  String.mk (stripTagsGo none s.data)

/-- Validator `sanitize_description` from `EntityBase` / `EntityUpdate` in
src/app/schemas/entity.py: `if v: return bleach.clean(v, tags=[], strip=True)`,
otherwise the value (None or the empty string, both falsy) is returned as is. -/
def sanitize_description : Option String → Option String
  | some v => if v.isEmpty then some v else some (bleachClean v)
  | none => none

/-- Sanitization of a single metadata value: string values go through
`bleach.clean(value, tags=[], strip=True)`, every other value is kept as is
(the `isinstance(value, str)` branch in `sanitize_metadata`). -/
def sanitizeVal : JsonVal → JsonVal
  | JsonVal.str s => JsonVal.str (bleachClean s)
  | v => v

/-- Validator `sanitize_metadata` from src/app/schemas/entity.py applied to a
present dict: an empty dict is falsy in Python, so `if v:` skips it; otherwise
each entry's value is sanitized via `sanitizeVal`. -/
def sanitize_metadata (m : Metadata) : Metadata :=
  if m.isEmpty then m else m.map (fun kv => (kv.1, sanitizeVal kv.2))

/-- Entity row, from the SQLAlchemy model in src/app/models/entity.py. The
Python attribute for the `metadata` column is `meta_data`; `none` models SQL
NULL. -/
structure Entity where
  id : EntityId
  name : String
  name_nepali : Option String
  entity_type : EntityType
  description : Option String
  meta_data : Option Metadata
  created_at : Timestamp
  updated_at : Option Timestamp
  version : String
deriving DecidableEq, Repr

/-- Relationship row, from the SQLAlchemy model in
src/app/models/relationship.py. Both `source_entity_id` and `target_entity_id`
are foreign keys into `entities` declared with `ondelete="CASCADE"`. -/
structure Relationship where
  id : RelId
  source_entity_id : EntityId
  target_entity_id : EntityId
  relationship_type : String
  description : Option String
  meta_data : Option Metadata
  created_at : Timestamp
  updated_at : Option Timestamp
deriving DecidableEq, Repr

/-- Database state: the `entities` and `relationships` tables. -/
structure DB where
  entities : List Entity
  relationships : List Relationship
deriving DecidableEq, Repr

/-- Error taxonomy of the endpoints (src/app/core/exceptions.py plus the 422
FastAPI produces for out-of-range query parameters). `entityNotFound` carries
the id interpolated into `EntityNotFoundError(str(entity_id))`. -/
inductive ApiError where
  | entityNotFound (id : EntityId)
  | relationshipNotFound (id : RelId)
  | validationError
deriving DecidableEq, Repr

/-- Lookup of an entity row by primary key, modelling
`select(Entity).where(Entity.id == entity_id)` + `scalar_one_or_none()`. -/
def findEntity (db : DB) (id : EntityId) : Option Entity :=
  db.entities.find? (fun e => decide (e.id = id))

/-- Lookup of a relationship row by primary key. -/
def findRelationship (db : DB) (id : RelId) : Option Relationship :=
  db.relationships.find? (fun r => decide (r.id = id))

/-- Descending insertion by key, used to model `ORDER BY created_at DESC`. -/
def insertDesc (key : α → Nat) (a : α) : List α → List α
  | [] => [a]
  | b :: l => if key b ≤ key a then a :: b :: l else b :: insertDesc key a l

/-- Descending sort by key, used to model `ORDER BY created_at DESC`. -/
def sortDesc (key : α → Nat) : List α → List α
  | [] => []
  | a :: l => insertDesc key a (sortDesc key l)

/-- SQL LIKE pattern matching over characters, with PostgreSQL's default
escape character: `%` matches any (possibly empty) sequence, `_` matches any
single character, a backslash escapes the following pattern character so that
it matches only itself, and every other pattern character matches itself. A
pattern ending in a bare backslash is an error in PostgreSQL ("LIKE pattern
must not end with escape character"); it is unreachable for the `%term%`
patterns this program builds (the appended `%` always follows) and is
modelled as non-matching. Structured so that the recursion is structural on
the pattern (the `%` case tries every suffix of the string via `tails`),
which keeps the function kernel-reducible. -/
def likeMatch : List Char → List Char → Bool
  | [], s => s.isEmpty
  | '\\' :: p, s =>
    match p, s with
    | e :: p', d :: s' => (e = d) && likeMatch p' s'
    | _, _ => false
  | c :: p, s =>
    if c = '%' then s.tails.any (fun t => likeMatch p t)
    else
      match s with
      | [] => false
      | d :: s' => (c = '_' ∨ c = d) && likeMatch p s'

/-- Lower-casing of a character list, modelling the case folding performed by
`ilike` (exact for ASCII; caseless scripts such as Devanagari are fixed by
`Char.toLower`). -/
def lowerL (s : List Char) : List Char :=
  s.map Char.toLower

/-- Model of SQLAlchemy `column.ilike(pattern)`: case-insensitive LIKE. -/
def ilikeChars (s pat : List Char) : Bool :=
  likeMatch (lowerL pat) (lowerL s)

/-- Search predicate of `list_entities` in
src/app/api/v1/endpoints/entities.py: the pattern is the f-string
`"%" + search + "%"` (no escaping of LIKE wildcards), matched with `ilike`
against `name` OR `name_nepali`; a NULL `name_nepali` never matches. -/
def entityMatchesSearch (e : Entity) (search : String) : Bool :=
  ilikeChars e.name.data ('%' :: (search.data ++ ['%'])) ||
    (match e.name_nepali with
     | some n => ilikeChars n.data ('%' :: (search.data ++ ['%']))
     | none => false)

/-- Leading-match test: `startsWithL s t` holds when `t` occurs at the head of
`s`. Spec-side helper for the substring reading of the search filter. -/
def startsWithL : List Char → List Char → Bool
  | _, [] => true
  | [], _ :: _ => false
  | d :: s', c :: t' => (c = d) && startsWithL s' t'

/-- Substring occurrence: `occursIn t s` holds when `t` occurs contiguously
somewhere in `s`. Spec-side helper for the substring reading of the search
filter. -/
def occursIn (t s : List Char) : Bool :=
  s.tails.any (fun u => startsWithL u t)

/-- Spec-side search predicate, following the words of the spec: the entity
matches when `name` or `name_nepali` contains the term as a case-insensitive
substring. -/
def specSearchMatch (e : Entity) (search : String) : Bool :=
  occursIn (lowerL search.data) (lowerL e.name.data) ||
    (match e.name_nepali with
     | some n => occursIn (lowerL search.data) (lowerL n.data)
     | none => false)

/-- Creation input for an entity, modelling the JSON body validated by
`EntityCreate` (src/app/schemas/entity.py). `metadata` is two-level so that
an omitted field (`none`, which takes the `default_factory=dict` default
without running the validator), an explicit `null` (`some none`) and a
provided mapping (`some (some m)`) stay distinguishable, as they are for
Pydantic. Length bounds on `name`/`description` are enforced by Pydantic
before the endpoint runs and are not re-modelled here; `description` needs
only one `Option` level because an omitted field and an explicit null both
validate to Python `None`. -/
structure EntityCreate where
  name : String
  name_nepali : Option String := none
  entity_type : EntityType
  description : Option String := none
  metadata : Option (Option Metadata) := none

/-- Value of the validated `metadata` field of `EntityCreate`: omitted fields
take the `default_factory=dict` default (validators do not run on defaults),
an explicit null passes `if v:` unchanged, and a provided mapping is
sanitized. -/
def entityCreateMetadata : Option (Option Metadata) → Option Metadata
  | none => some []
  | some none => none
  | some (some m) => some (sanitize_metadata m)

/-- Endpoint `create_entity` (src/app/api/v1/endpoints/entities.py): builds the
row from the validated schema dump, remapping the schema key `metadata` to the
model attribute `meta_data`, and inserts it. `newId` models the `uuid.uuid4`
default and `now` the server-assigned `created_at`; `version` defaults to
"1.0" and `updated_at` starts NULL. -/
def create_entity (db : DB) (i : EntityCreate) (newId : EntityId)
    (now : Timestamp) : DB × Entity :=
  let e : Entity :=
    { id := newId
      name := i.name
      name_nepali := i.name_nepali
      entity_type := i.entity_type
      description := sanitize_description i.description
      meta_data := entityCreateMetadata i.metadata
      created_at := now
      updated_at := none
      version := "1.0" }
  ({ db with entities := db.entities ++ [e] }, e)

/-- Endpoint `list_entities` (src/app/api/v1/endpoints/entities.py). FastAPI
validates `skip ≥ 0` and `1 ≤ limit ≤ 1000` (Query ge/le) with a 422 before
the handler runs; the guard models that, and out-of-range values never reach
the store. The handler applies the optional `entity_type` equality filter and
the optional search filter (skipped for `None` and for the empty string, both
falsy under Python `if search:`), orders by `created_at` descending and pages
with offset/limit. -/
def list_entities (db : DB) (skip limit : Int) (entity_type : Option EntityType)
    (search : Option String) : Except ApiError (List Entity) :=
  if 0 ≤ skip ∧ 1 ≤ limit ∧ limit ≤ 1000 then
    let base := db.entities
    let base :=
      match entity_type with
      | some t => base.filter (fun e => decide (e.entity_type = t))
      | none => base
    let base :=
      match search with
      | some s => if s.isEmpty then base else base.filter (fun e => entityMatchesSearch e s)
      | none => base
    Except.ok (((sortDesc (fun e => e.created_at) base).drop skip.toNat).take limit.toNat)
  else Except.error ApiError.validationError

/-- Partial-update input for an entity, modelling `EntityUpdate`
(src/app/schemas/entity.py) after `model_dump(exclude_unset=True)`: an outer
`none` means the field was absent from the request body and is not written at
all. For the nullable columns (`name_nepali`, `description`, `metadata`) the
inner `Option` distinguishes an explicit null from a value. `name` and
`entity_type` carry a plain value: a request that explicitly nulls them is
accepted by the schema but fails the NOT NULL constraint at commit with a 500,
a path outside this model. -/
structure EntityUpdate where
  name : Option String := none
  name_nepali : Option (Option String) := none
  entity_type : Option EntityType := none
  description : Option (Option String) := none
  metadata : Option (Option Metadata) := none

/-- Field application loop of `update_entity`: `for field, value in
update_data.items(): setattr(entity, field, value)`, with the schema key
`metadata` remapped to `meta_data`. The values carried by the dump have
already passed the `EntityUpdate` validators, so description and metadata are
sanitized here exactly as the validators do. -/
def applyEntityUpdate (e : Entity) (u : EntityUpdate) : Entity :=
  let e1 := match u.name with
    | some v => { e with name := v }
    | none => e
  let e2 := match u.name_nepali with
    | some v => { e1 with name_nepali := v }
    | none => e1
  let e3 := match u.entity_type with
    | some v => { e2 with entity_type := v }
    | none => e2
  let e4 := match u.description with
    | some v => { e3 with description := sanitize_description v }
    | none => e3
  let e5 := match u.metadata with
    | some v => { e4 with meta_data := v.map sanitize_metadata }
    | none => e4
  e5

/-- Endpoint `update_entity` (src/app/api/v1/endpoints/entities.py): load by
id or fail with `EntityNotFoundError`, apply the dumped fields, commit.
`updated_at` is the column's `onupdate=func.now()`: it fires only when the
flush actually emits an UPDATE, and SQLAlchemy emits none when every written
value equals the committed value (the net-change check in
`_collect_update_commands`), so a no-op write leaves `updated_at` alone. -/
def update_entity (db : DB) (id : EntityId) (u : EntityUpdate)
    (now : Timestamp) : DB × Except ApiError Entity :=
  match findEntity db id with
  | none => (db, Except.error (ApiError.entityNotFound id))
  | some e =>
    let e' := applyEntityUpdate e u
    let e'' := if e' = e then e else { e' with updated_at := some now }
    ({ db with entities := db.entities.map (fun x => if x.id = id then e'' else x) },
      Except.ok e'')

/-- Endpoint `delete_entity` (src/app/api/v1/endpoints/entities.py): load by
id or fail with `EntityNotFoundError` (leaving the store untouched), then
delete the row and commit. Both foreign keys of `relationships` are declared
`ondelete="CASCADE"` (src/app/models/relationship.py), so the same transaction
removes every relationship whose source or target is the deleted entity. -/
def delete_entity (db : DB) (id : EntityId) : DB × Except ApiError Unit :=
  match findEntity db id with
  | none => (db, Except.error (ApiError.entityNotFound id))
  | some _ =>
    ({ entities := db.entities.filter (fun e => decide (¬ e.id = id))
       relationships := db.relationships.filter
         (fun r => decide (¬ (r.source_entity_id = id ∨ r.target_entity_id = id))) },
      Except.ok ())

/-- Creation input for a relationship, modelling the JSON body validated by
`RelationshipCreate` (src/app/schemas/relationship.py). As for `EntityCreate`,
`metadata` keeps the omitted / explicit-null / mapping distinction; no
sanitizing validator exists on the relationship schemas. -/
structure RelationshipCreate where
  source_entity_id : EntityId
  target_entity_id : EntityId
  relationship_type : String
  description : Option String := none
  metadata : Option (Option Metadata) := none

/-- Endpoint `create_relationship` (src/app/api/v1/endpoints/relationships.py):
resolve the source entity, then the target entity, raising
`EntityNotFoundError(str(missing_id))` before anything is added to the session
when either lookup fails; otherwise build the row from the schema dump and
insert it. The dump's `metadata` key is passed to the model constructor as the
keyword `metadata`, but the mapped attribute of the `metadata` column is named
`meta_data` (src/app/models/relationship.py line 45); `metadata` resolves to
SQLAlchemy's declarative `Base.metadata`, so the keyword only shadows that
class attribute on the instance and the mapped column is never assigned. The
INSERT therefore always applies the column default `{}`, which is why
`meta_data` below is `some []` regardless of the input (entities.py remaps the
key to `meta_data`; relationships.py does not). -/
def create_relationship (db : DB) (i : RelationshipCreate) (newId : RelId)
    (now : Timestamp) : DB × Except ApiError Relationship :=
  match findEntity db i.source_entity_id with
  | none => (db, Except.error (ApiError.entityNotFound i.source_entity_id))
  | some _ =>
    match findEntity db i.target_entity_id with
    | none => (db, Except.error (ApiError.entityNotFound i.target_entity_id))
    | some _ =>
      let r : Relationship :=
        { id := newId
          source_entity_id := i.source_entity_id
          target_entity_id := i.target_entity_id
          relationship_type := i.relationship_type
          description := i.description
          meta_data := some []
          created_at := now
          updated_at := none }
      ({ db with relationships := db.relationships ++ [r] }, Except.ok r)

/-- Endpoint `list_relationships`
(src/app/api/v1/endpoints/relationships.py): same FastAPI pagination bounds as
`list_entities`; optional `entity_id` filter matching source OR target, and
optional `relationship_type` equality filter (skipped for the empty string,
falsy under Python `if relationship_type:`); ordered by `created_at`
descending, then offset/limit. -/
def list_relationships (db : DB) (skip limit : Int) (entity_id : Option EntityId)
    (relationship_type : Option String) : Except ApiError (List Relationship) :=
  if 0 ≤ skip ∧ 1 ≤ limit ∧ limit ≤ 1000 then
    let base := db.relationships
    let base :=
      match entity_id with
      | some i => base.filter
          (fun r => decide (r.source_entity_id = i ∨ r.target_entity_id = i))
      | none => base
    let base :=
      match relationship_type with
      | some rt => if rt.isEmpty then base
          else base.filter (fun r => decide (r.relationship_type = rt))
      | none => base
    Except.ok (((sortDesc (fun r => r.created_at) base).drop skip.toNat).take limit.toNat)
  else Except.error ApiError.validationError

/-- Partial-update input for a relationship, modelling `RelationshipUpdate`
(src/app/schemas/relationship.py) after `model_dump(exclude_unset=True)`. The
schema declares exactly three fields — `relationship_type`, `description`,
`metadata` — so no other column can appear in the dump; in particular the
endpoints of a relationship cannot be written through this schema.
`relationship_type` carries a plain value (an explicit null fails the NOT NULL
constraint at commit with a 500, outside this model). -/
structure RelationshipUpdate where
  relationship_type : Option String := none
  description : Option (Option String) := none
  metadata : Option (Option Metadata) := none

/-- Field application loop of `update_relationship`; no sanitization happens
for relationships (the relationship schemas declare no validators). There is
no schema-to-model key remapping here either, but for updates `setattr` with
the key `metadata` writes the same shadowing instance attribute as in
`create_relationship`, leaving the mapped `meta_data` column untouched, so a
supplied `metadata` value is again not persisted. -/
def applyRelationshipUpdate (r : Relationship) (u : RelationshipUpdate) : Relationship :=
  let r1 := match u.relationship_type with
    | some v => { r with relationship_type := v }
    | none => r
  let r2 := match u.description with
    | some v => { r1 with description := v }
    | none => r1
  r2

/-- Endpoint `update_relationship`
(src/app/api/v1/endpoints/relationships.py): load by id or fail with
`RelationshipNotFoundError`, apply the dumped fields, commit. As in
`update_entity`, `onupdate=func.now()` fires only when a net change makes the
flush emit an UPDATE. -/
def update_relationship (db : DB) (id : RelId) (u : RelationshipUpdate)
    (now : Timestamp) : DB × Except ApiError Relationship :=
  match findRelationship db id with
  | none => (db, Except.error (ApiError.relationshipNotFound id))
  | some r =>
    let r' := applyRelationshipUpdate r u
    let r'' := if r' = r then r else { r' with updated_at := some now }
    ({ db with relationships := db.relationships.map (fun x => if x.id = id then r'' else x) },
      Except.ok r'')

/-- Sample entity used to instantiate claim theorems with hypotheses. -/
def entA : Entity :=
  { id := 1, name := "Nepal Government", name_nepali := some "नेपाल सरकार",
    entity_type := EntityType.government, description := none,
    meta_data := some [], created_at := 10, updated_at := none, version := "1.0" }

/-- Sample relationship touching `entA` on both endpoints. -/
def relA : Relationship :=
  { id := 7, source_entity_id := 1, target_entity_id := 1,
    relationship_type := "member_of", description := none,
    meta_data := some [], created_at := 11, updated_at := none }

/-- Sample database holding `entA` and `relA`. -/
def dbA : DB :=
  { entities := [entA], relationships := [relA] }

/-- Sample entity whose name "xyz" is matched by the LIKE pattern %x_z% even
though it does not contain "x_z" as a substring. -/
def entXyz : Entity :=
  { id := 3, name := "xyz", name_nepali := none,
    entity_type := EntityType.other, description := none,
    meta_data := some [], created_at := 4, updated_at := none, version := "1.0" }

/-- Sample store for the C6 witness: "Ram Sharma" matches the term "ram"
case-insensitively, "Nepal Government" does not. -/
def dbRam : DB :=
  { entities :=
      [{ id := 2, name := "Ram Sharma", name_nepali := some "राम शर्मा",
         entity_type := EntityType.person, description := none,
         meta_data := some [], created_at := 20, updated_at := none,
         version := "1.0" },
       entA],
    relationships := [] }

deriving instance DecidableEq for Except

theorem mem_insertDesc {α : Type} (key : α → Nat) (a x : α) (l : List α) :
    x ∈ insertDesc key a l ↔ x = a ∨ x ∈ l := by
  induction l with
  | nil => simp [insertDesc]
  | cons b t ih =>
    simp only [insertDesc]
    split
    · simp [List.mem_cons]
    · simp [List.mem_cons, ih]
      tauto

theorem mem_sortDesc {α : Type} (key : α → Nat) (x : α) (l : List α) :
    x ∈ sortDesc key l ↔ x ∈ l := by
  induction l with
  | nil => simp [sortDesc]
  | cons a t ih => simp [sortDesc, mem_insertDesc, ih, List.mem_cons]

theorem length_insertDesc {α : Type} (key : α → Nat) (a : α) (l : List α) :
    (insertDesc key a l).length = l.length + 1 := by
  induction l with
  | nil => rfl
  | cons b t ih =>
    simp only [insertDesc]
    split
    · rfl
    · simp [ih]

theorem length_sortDesc {α : Type} (key : α → Nat) (l : List α) :
    (sortDesc key l).length = l.length := by
  induction l with
  | nil => rfl
  | cons a t ih => simp [sortDesc, length_insertDesc, ih]

theorem anyCongr {α : Type} (l : List α) (f g : α → Bool)
    (h : ∀ x ∈ l, f x = g x) : l.any f = l.any g := by
  induction l with
  | nil => rfl
  | cons a t ih =>
    simp only [List.any_cons]
    rw [h a (List.mem_cons_self a t), ih (fun x hx => h x (List.mem_cons_of_mem a hx))]

theorem tails_any_isEmpty (s : List Char) : s.tails.any (fun t => t.isEmpty) = true := by
  induction s with
  | nil => rfl
  | cons c t ih => simp [List.tails_cons, List.any_cons, ih]

theorem likeMatch_append_percent (t : List Char)
    (h : ∀ c ∈ t, c ≠ '%' ∧ c ≠ '_' ∧ c ≠ '\\') :
    ∀ s, likeMatch (t ++ ['%']) s = startsWithL s t := by
  induction t with
  | nil =>
    intro s
    show likeMatch ['%'] s = startsWithL s []
    simp only [likeMatch, startsWithL]
    rw [if_pos trivial]
    exact tails_any_isEmpty s
  | cons c t' ih =>
    intro s
    have hc := h c (List.mem_cons_self c t')
    have ht' : ∀ x ∈ t', x ≠ '%' ∧ x ≠ '_' ∧ x ≠ '\\' :=
      fun x hx => h x (List.mem_cons_of_mem c hx)
    cases s with
    | nil =>
      show likeMatch (c :: (t' ++ ['%'])) [] = startsWithL [] (c :: t')
      rw [likeMatch.eq_4 c (t' ++ ['%']) hc.2.2, if_neg hc.1]
      rfl
    | cons d s' =>
      show likeMatch (c :: (t' ++ ['%'])) (d :: s') = startsWithL (d :: s') (c :: t')
      rw [likeMatch.eq_5 c (t' ++ ['%']) d s' hc.2.2, if_neg hc.1, ih ht' s']
      have : (c = '_' ∨ c = d) ↔ (c = d) := by
        constructor
        · intro hcd
          cases hcd with
          | inl h1 => exact absurd h1 hc.2.1
          | inr h2 => exact h2
        · intro h2
          exact Or.inr h2
      simp [startsWithL, this]

theorem likeMatch_percent_wrap (t : List Char)
    (h : ∀ c ∈ t, c ≠ '%' ∧ c ≠ '_' ∧ c ≠ '\\') (s : List Char) :
    likeMatch ('%' :: (t ++ ['%'])) s = occursIn t s := by
  show likeMatch ('%' :: (t ++ ['%'])) s = s.tails.any (fun u => startsWithL u t)
  have hstep : likeMatch ('%' :: (t ++ ['%'])) s
      = s.tails.any (fun u => likeMatch (t ++ ['%']) u) := rfl
  rw [hstep]
  exact anyCongr _ _ _ (fun u _ => likeMatch_append_percent t h u)

theorem lowerL_percent_wrap (t : String) :
    lowerL ('%' :: (t.data ++ ['%'])) = '%' :: (lowerL t.data ++ ['%']) := by
  have hpc : Char.toLower '%' = '%' := by decide
  simp [lowerL, List.map_append, hpc]

theorem entityMatchesSearch_eq_spec (e : Entity) (t : String)
    (h : ∀ c ∈ lowerL t.data, c ≠ '%' ∧ c ≠ '_' ∧ c ≠ '\\') :
    entityMatchesSearch e t = specSearchMatch e t := by
  unfold entityMatchesSearch specSearchMatch ilikeChars
  rw [lowerL_percent_wrap]
  cases hnn : e.name_nepali with
  | none =>
    simp only [hnn]
    rw [likeMatch_percent_wrap _ h]
  | some n =>
    simp only [hnn]
    rw [likeMatch_percent_wrap _ h, likeMatch_percent_wrap _ h]

theorem not_mem_append {α : Type} {x : α} {a b : List α}
    (ha : ¬ x ∈ a) (hb : ¬ x ∈ b) : ¬ x ∈ a ++ b :=
  fun hm => (List.mem_append.1 hm).elim ha hb

theorem escapeChar_no_angle (c : Char) :
    ¬ '<' ∈ escapeChar c ∧ ¬ '>' ∈ escapeChar c := by
  unfold escapeChar
  split_ifs with h1 h2 h3
  · exact ⟨by simp, by simp⟩
  · exact ⟨by simp, by simp⟩
  · exact ⟨by simp, by simp⟩
  · refine ⟨fun hm => ?_, fun hm => ?_⟩
    · rw [List.mem_singleton] at hm
      exact h1 hm.symm
    · rw [List.mem_singleton] at hm
      exact h2 hm.symm

theorem flatMap_escapeChar_no_angle (l : List Char) :
    ¬ '<' ∈ l.flatMap escapeChar ∧ ¬ '>' ∈ l.flatMap escapeChar := by
  refine ⟨fun hm => ?_, fun hm => ?_⟩
  · rcases List.mem_flatMap.1 hm with ⟨a, _, ha⟩
    exact (escapeChar_no_angle a).1 ha
  · rcases List.mem_flatMap.1 hm with ⟨a, _, ha⟩
    exact (escapeChar_no_angle a).2 ha

theorem stripTagsGo_not_mem (x : Char) (hx : x = '<' ∨ x = '>') (l : List Char) :
    ∀ mode, ¬ x ∈ stripTagsGo mode l := by
  have hesc : ∀ c, ¬ x ∈ escapeChar c := fun c =>
    hx.elim (fun h => h ▸ (escapeChar_no_angle c).1) (fun h => h ▸ (escapeChar_no_angle c).2)
  have h4 : ¬ x ∈ (['&', 'l', 't', ';'] : List Char) :=
    hx.elim (fun h => h ▸ (by decide)) (fun h => h ▸ (by decide))
  have hfm : ∀ (l' : List Char), ¬ x ∈ l'.flatMap escapeChar := by
    intro l' hm
    rcases List.mem_flatMap.1 hm with ⟨a, _, ha⟩
    exact hesc a ha
  induction l with
  | nil =>
    intro mode
    cases mode with
    | none => simp [stripTagsGo]
    | some acc =>
      simp only [stripTagsGo]
      exact not_mem_append h4 (hfm acc.reverse)
  | cons c rest ih =>
    intro mode
    cases mode with
    | some acc =>
      simp only [stripTagsGo]
      split
      · exact ih none
      · exact ih (some (c :: acc))
    | none =>
      simp only [stripTagsGo]
      split
      · cases rest with
        | nil => exact h4
        | cons d rest' =>
          show ¬ x ∈ (if d.isAlpha ∨ d = '/' ∨ d = '!' ∨ d = '?'
            then stripTagsGo (some []) (d :: rest')
            else ['&', 'l', 't', ';'] ++ stripTagsGo none (d :: rest'))
          split
          · exact ih (some [])
          · exact not_mem_append h4 (ih none)
      · exact not_mem_append (hesc c) (ih none)

theorem bleachClean_no_angle (s : String) :
    ¬ '<' ∈ (bleachClean s).data ∧ ¬ '>' ∈ (bleachClean s).data :=
  ⟨stripTagsGo_not_mem '<' (Or.inl rfl) s.data none,
   stripTagsGo_not_mem '>' (Or.inr rfl) s.data none⟩

/-- C3 (counterexample): creating an entity with description
"<script>alert(1)</script>Hello" does not store "Hello". bleach with
strip=True removes the script tags but keeps the element's text content, so
the stored description is "alert(1)Hello". -/
theorem create_entity_script_text_retained :
    ((create_entity { entities := [], relationships := [] }
        { name := "Nepal Government", entity_type := EntityType.government,
          description := some "<script>alert(1)</script>Hello" } 1 0).2).description
      = some "alert(1)Hello"
    ∧ (some "alert(1)Hello" : Option String) ≠ some "Hello" := by
  decide

/-- C3 (amended): sanitization of Entity.description strips all markup tags —
no angle-bracket character survives in the output, so no HTML element
remains — but the text content of stripped elements, including script
bodies, is preserved; in particular, creating an Entity with description
"<script>alert(1)</script>Hello" stores the description "alert(1)Hello". -/
theorem sanitize_description_strips_tags_keeps_text :
    (∀ s, ¬ '<' ∈ (bleachClean s).data ∧ ¬ '>' ∈ (bleachClean s).data)
    ∧ ∀ (db : DB) (newId : EntityId) (now : Timestamp) (nm : String) (ty : EntityType),
        ((create_entity db
            { name := nm, entity_type := ty,
              description := some "<script>alert(1)</script>Hello" } newId now).2).description
          = some "alert(1)Hello" := by
  constructor
  · exact bleachClean_no_angle
  · intro db newId now nm ty
    rfl

/-- C5: for both list operations, limit = 1000 is accepted and honored (the
window is exactly `take 1000`, never clamped), while limit = 1001, limit = 0
and skip = -1 are each rejected with a ValidationError; the rejection happens
before the store is consulted (the same error results for every store). -/
theorem list_pagination_bounds :
    ∀ (db db' : DB),
      (list_entities db 0 1000 none none
          = Except.ok ((sortDesc (fun e => e.created_at) db.entities).take 1000))
      ∧ list_entities db 0 1001 none none = Except.error ApiError.validationError
      ∧ list_entities db 0 0 none none = Except.error ApiError.validationError
      ∧ list_entities db (-1) 100 none none = Except.error ApiError.validationError
      ∧ (list_relationships db 0 1000 none none
          = Except.ok ((sortDesc (fun r => r.created_at) db.relationships).take 1000))
      ∧ list_relationships db 0 1001 none none = Except.error ApiError.validationError
      ∧ list_relationships db 0 0 none none = Except.error ApiError.validationError
      ∧ list_relationships db (-1) 100 none none = Except.error ApiError.validationError
      ∧ list_entities db 0 1001 none none = list_entities db' 0 1001 none none
      ∧ list_relationships db 0 1001 none none = list_relationships db' 0 1001 none none := by
  intro db db'
  have h1000 : Int.toNat 1000 = 1000 := rfl
  refine ⟨?_, ?_, ?_, ?_, ?_, ?_, ?_, ?_, ?_, ?_⟩ <;>
    norm_num [list_entities, list_relationships, h1000]

theorem sanitize_metadata_eq_map (m : Metadata) :
    sanitize_metadata m = m.map (fun kv => (kv.1,
      match kv.2 with
      | JsonVal.str s => JsonVal.str (bleachClean s)
      | v => v)) := by
  unfold sanitize_metadata
  by_cases hm : m.isEmpty
  · rw [if_pos hm]
    have hnil : m = [] := by
      cases m with
      | nil => rfl
      | cons a t => simp [List.isEmpty] at hm
    subst hnil
    rfl
  · rw [if_neg hm]
    rfl

theorem applyEntityUpdate_metadata (e : Entity) (u : EntityUpdate) (m : Metadata)
    (hm : u.metadata = some (some m)) :
    (applyEntityUpdate e u).meta_data = some (sanitize_metadata m) := by
  unfold applyEntityUpdate
  rw [hm]
  rfl

/-- C7: on both write paths — entity creation and entity update — every
string value of a supplied metadata mapping is sanitized with the same
bleach pass as description while every non-string value passes through
unchanged before storage; on creation an omitted metadata field is stored as
the empty mapping (the `default_factory=dict` default), never as null. (On
update an omitted field is simply not written, per the exclude_unset frame
of C4's theorem.) -/
theorem entity_metadata_sanitized_and_defaulted :
    (∀ (db : DB) (newId now : Nat) (nm : String) (nn : Option String)
        (ty : EntityType) (d : Option String) (m : Metadata),
        ((create_entity db
            { name := nm, name_nepali := nn, entity_type := ty,
              description := d, metadata := some (some m) } newId now).2).meta_data
          = some (m.map (fun kv => (kv.1,
              match kv.2 with
              | JsonVal.str s => JsonVal.str (bleachClean s)
              | v => v))))
    ∧ (∀ (db : DB) (newId now : Nat) (nm : String) (nn : Option String)
        (ty : EntityType) (d : Option String),
        ((create_entity db
            { name := nm, name_nepali := nn, entity_type := ty,
              description := d, metadata := none } newId now).2).meta_data = some [])
    ∧ (∀ (db : DB) (id : EntityId) (u : EntityUpdate) (now : Timestamp)
        (e : Entity) (m : Metadata),
        findEntity db id = some e → u.metadata = some (some m) →
        ∃ r, (update_entity db id u now).2 = Except.ok r
          ∧ r.meta_data = some (m.map (fun kv => (kv.1,
              match kv.2 with
              | JsonVal.str s => JsonVal.str (bleachClean s)
              | v => v)))) := by
  refine ⟨?_, ?_, ?_⟩
  · intro db newId now nm nn ty d m
    show some (sanitize_metadata m) = _
    rw [sanitize_metadata_eq_map]
  · intro db newId now nm nn ty d
    rfl
  · intro db id u now e m hf hm
    simp only [update_entity, hf]
    refine ⟨_, rfl, ?_⟩
    have hbr : (if applyEntityUpdate e u = e then e
        else { applyEntityUpdate e u with updated_at := some now }).meta_data
        = (applyEntityUpdate e u).meta_data := by
      split
      · next heq => rw [heq]
      · rfl
    rw [hbr, applyEntityUpdate_metadata e u m hm, sanitize_metadata_eq_map]

/-- C7 witness: the update conjunct applied to the concrete store `dbA` with
a metadata mapping holding one string value (sanitized) and one number
(unchanged). -/
theorem entity_metadata_sanitized_and_defaulted_witness :
    ∃ r, (update_entity dbA 1
        { metadata := some (some [("k", JsonVal.str "<b>x</b>"), ("n", JsonVal.num 2)]) }
        6).2 = Except.ok r
      ∧ r.meta_data = some ([("k", JsonVal.str "<b>x</b>"), ("n", JsonVal.num 2)].map
          (fun kv => (kv.1,
            match kv.2 with
            | JsonVal.str s => JsonVal.str (bleachClean s)
            | v => v))) :=
  entity_metadata_sanitized_and_defaulted.2.2 dbA 1
    { metadata := some (some [("k", JsonVal.str "<b>x</b>"), ("n", JsonVal.num 2)]) }
    6 entA [("k", JsonVal.str "<b>x</b>"), ("n", JsonVal.num 2)] (by decide) rfl

/-- C8: evaluation of `create_relationship` at the failing input. With both
endpoints present, the call succeeds, but the relationship it persists
carries the column-default empty metadata mapping instead of the supplied
one: the schema dump's `metadata` keyword never reaches the mapped
`meta_data` attribute of the model. -/
theorem create_relationship_drops_metadata :
    (create_relationship
        { entities :=
            [{ id := 1, name := "A", name_nepali := none,
               entity_type := EntityType.person, description := none,
               meta_data := some [], created_at := 0, updated_at := none,
               version := "1.0" },
             { id := 2, name := "B", name_nepali := none,
               entity_type := EntityType.organization, description := none,
               meta_data := some [], created_at := 0, updated_at := none,
               version := "1.0" }],
          relationships := [] }
        { source_entity_id := 1, target_entity_id := 2,
          relationship_type := "works_for",
          metadata := some (some [("role", JsonVal.str "President")]) } 7 3).2
      = Except.ok
          { id := 7, source_entity_id := 1, target_entity_id := 2,
            relationship_type := "works_for", description := none,
            meta_data := some [], created_at := 3, updated_at := none }
    ∧ some ([] : Metadata) ≠ some [("role", JsonVal.str "President")] := by
  decide

/-- C10: calling the entity list operation with search equal to the empty
string behaves exactly like omitting the search filter: Python `if search:`
is false for the empty string, so no substring predicate is applied. -/
theorem list_entities_empty_search_is_no_filter :
    ∀ (db : DB) (skip limit : Int) (ty : Option EntityType),
      list_entities db skip limit ty (some "") = list_entities db skip limit ty none := by
  intro db skip limit ty
  rfl

theorem list_relationships_entity_filter_nil (db : DB) (i : EntityId)
    (h : ∀ r ∈ db.relationships, ¬ (r.source_entity_id = i ∨ r.target_entity_id = i)) :
    list_relationships db 0 1000 (some i) none = Except.ok [] := by
  have hfil : db.relationships.filter
      (fun r => decide (r.source_entity_id = i ∨ r.target_entity_id = i)) = [] := by
    rw [List.filter_eq_nil_iff]
    intro r hr
    simp only [decide_eq_true_eq]
    exact h r hr
  unfold list_relationships
  rw [if_pos (by norm_num)]
  simp only [hfil]
  rfl

/-- C1: deleting an existing Entity succeeds and, in the same atomic
transition (one transaction, with the cascade coming from the
`ondelete="CASCADE"` foreign keys), removes the entity and every relationship
whose source or target is the entity, and nothing else; listing relationships
filtered by that entity id afterwards returns the empty sequence. -/
theorem delete_entity_cascades :
    ∀ (db : DB) (e : Entity), e ∈ db.entities →
      (delete_entity db e.id).2 = Except.ok ()
      ∧ findEntity (delete_entity db e.id).1 e.id = none
      ∧ (∀ r ∈ (delete_entity db e.id).1.relationships,
          ¬ r.source_entity_id = e.id ∧ ¬ r.target_entity_id = e.id)
      ∧ (∀ r ∈ db.relationships,
          ¬ r.source_entity_id = e.id → ¬ r.target_entity_id = e.id →
            r ∈ (delete_entity db e.id).1.relationships)
      ∧ list_relationships (delete_entity db e.id).1 0 1000 (some e.id) none
          = Except.ok [] := by
  intro db e he
  have hsome : (findEntity db e.id).isSome := by
    rw [findEntity, List.find?_isSome]
    exact ⟨e, he, by simp⟩
  obtain ⟨e', he'⟩ := Option.isSome_iff_exists.1 hsome
  simp only [delete_entity, he']
  refine ⟨trivial, ?_, ?_, ?_, ?_⟩
  · rw [findEntity, List.find?_eq_none]
    intro x hx
    rw [List.mem_filter] at hx
    simp only [decide_eq_true_eq] at hx ⊢
    exact hx.2
  · intro r hr
    rw [List.mem_filter] at hr
    simp only [decide_eq_true_eq, not_or] at hr
    exact hr.2
  · intro r hr h1 h2
    rw [List.mem_filter]
    refine ⟨hr, ?_⟩
    simp only [decide_eq_true_eq, not_or]
    exact ⟨h1, h2⟩
  · apply list_relationships_entity_filter_nil
    intro r hr
    rw [List.mem_filter] at hr
    simp only [decide_eq_true_eq] at hr
    exact hr.2

/-- C1 witness: the cascade theorem applied to the concrete store `dbA`. -/
theorem delete_entity_cascades_witness :
    list_relationships (delete_entity dbA 1).1 0 1000 (some 1) none
      = Except.ok [] :=
  (delete_entity_cascades dbA entA (by decide)).2.2.2.2

/-- C2: when the source entity of a relationship-create input does not exist,
the call fails with `EntityNotFoundError` carrying the source id; when the
source exists but the target does not, it fails with `EntityNotFoundError`
carrying the target id. In both cases the error identifies the missing
endpoint by its id, the check precedes any session mutation, and the store is
returned unchanged (nothing is persisted). -/
theorem create_relationship_missing_endpoint :
    ∀ (db : DB) (i : RelationshipCreate) (newId : RelId) (now : Timestamp),
      (findEntity db i.source_entity_id = none →
        create_relationship db i newId now
          = (db, Except.error (ApiError.entityNotFound i.source_entity_id)))
      ∧ (∀ src, findEntity db i.source_entity_id = some src →
          findEntity db i.target_entity_id = none →
          create_relationship db i newId now
            = (db, Except.error (ApiError.entityNotFound i.target_entity_id))) := by
  intro db i newId now
  constructor
  · intro h
    simp only [create_relationship, h]
  · intro src hs ht
    simp only [create_relationship, hs, ht]

/-- C2 witness: creating a relationship in `dbA` whose source entity id 5 is
absent fails with `entityNotFound 5` and leaves the store unchanged. -/
theorem create_relationship_missing_endpoint_witness :
    create_relationship dbA
        { source_entity_id := 5, target_entity_id := 1,
          relationship_type := "works_for" } 9 9
      = (dbA, Except.error (ApiError.entityNotFound 5)) :=
  (create_relationship_missing_endpoint dbA
    { source_entity_id := 5, target_entity_id := 1,
      relationship_type := "works_for" } 9 9).1 (by decide)

theorem applyRelationshipUpdate_endpoints (r : Relationship) (u : RelationshipUpdate) :
    (applyRelationshipUpdate r u).source_entity_id = r.source_entity_id
    ∧ (applyRelationshipUpdate r u).target_entity_id = r.target_entity_id := by
  unfold applyRelationshipUpdate
  cases u.relationship_type <;> cases u.description <;> simp

/-- C9: updating an existing relationship never changes its endpoints: the
`RelationshipUpdate` schema declares only `relationship_type`, `description`
and `metadata`, so `source_entity_id` and `target_entity_id` of the updated
record always equal those of the stored record. -/
theorem update_relationship_endpoints_immutable :
    ∀ (db : DB) (rid : RelId) (u : RelationshipUpdate) (now : Timestamp)
      (r : Relationship), findRelationship db rid = some r →
      ∃ r', (update_relationship db rid u now).2 = Except.ok r'
        ∧ r'.source_entity_id = r.source_entity_id
        ∧ r'.target_entity_id = r.target_entity_id := by
  intro db rid u now r hr
  simp only [update_relationship, hr]
  refine ⟨_, rfl, ?_, ?_⟩
  · split
    · rfl
    · exact (applyRelationshipUpdate_endpoints r u).1
  · split
    · rfl
    · exact (applyRelationshipUpdate_endpoints r u).2

/-- C9 witness: the endpoint-immutability theorem applied to the concrete
store `dbA` and an update that rewrites every updatable field. -/
theorem update_relationship_endpoints_immutable_witness :
    ∃ r', (update_relationship dbA 7
        { relationship_type := some "partner_with",
          description := some (some "changed"),
          metadata := some (some [("k", JsonVal.num 3)]) } 12).2 = Except.ok r'
      ∧ r'.source_entity_id = relA.source_entity_id
      ∧ r'.target_entity_id = relA.target_entity_id :=
  update_relationship_endpoints_immutable dbA 7
    { relationship_type := some "partner_with",
      description := some (some "changed"),
      metadata := some (some [("k", JsonVal.num 3)]) } 12 relA (by decide)

/-- C4 (counterexample): an update input that supplies only `description`
with a value equal to the stored one produces no net attribute change, so
SQLAlchemy emits no UPDATE and `onupdate=func.now()` never fires: the
returned record still has `updated_at = None` instead of the current time,
refuting the claim for this input. -/
theorem update_entity_same_value_keeps_updated_at :
    (update_entity
        { entities :=
            [{ id := 1, name := "Ram Sharma", name_nepali := none,
               entity_type := EntityType.person, description := some "Hello",
               meta_data := some [], created_at := 0, updated_at := none,
               version := "1.0" }],
          relationships := [] }
        1 { description := some (some "Hello") } 5).2
      = Except.ok
          { id := 1, name := "Ram Sharma", name_nepali := none,
            entity_type := EntityType.person, description := some "Hello",
            meta_data := some [], created_at := 0, updated_at := none,
            version := "1.0" }
    ∧ (none : Option Timestamp) ≠ some 5 := by
  decide

/-- C4 (amended): for an existing entity and a partial-update input whose only
supplied field is `description`, with a sanitized value that differs from the
stored one, exactly `description` is overwritten: `name`, `entity_type`,
`name_nepali` and `metadata` keep their prior values, `created_at` is
unchanged, and `updated_at` is set to the current time. (When the supplied
value sanitizes to the stored value, no UPDATE is emitted and `updated_at` is
left unchanged — the counterexample's case.) -/
theorem update_entity_partial_frame :
    ∀ (db : DB) (id : EntityId) (u : EntityUpdate) (now : Timestamp)
      (e : Entity) (d : Option String),
      findEntity db id = some e →
      u.name = none → u.name_nepali = none → u.entity_type = none →
      u.metadata = none → u.description = some d →
      sanitize_description d ≠ e.description →
      (update_entity db id u now).2
        = Except.ok
            { e with description := sanitize_description d,
                     updated_at := some now } := by
  intro db id u now e d hf hn hnn ht hm hd hne
  simp only [update_entity, hf]
  have happ : applyEntityUpdate e u = { e with description := sanitize_description d } := by
    unfold applyEntityUpdate
    rw [hn, hnn, ht, hd, hm]
  rw [happ]
  have hcond : ¬ ({ e with description := sanitize_description d } = e) := by
    intro hEq
    apply hne
    have := congrArg Entity.description hEq
    simpa using this
  rw [if_neg hcond]

/-- C4 witness: the frame theorem applied to `dbA` and an update carrying only
a fresh description. -/
theorem update_entity_partial_frame_witness :
    (update_entity dbA 1 { description := some (some "New text") } 5).2
      = Except.ok
          { entA with description := sanitize_description (some "New text"),
                      updated_at := some 5 } :=
  update_entity_partial_frame dbA 1 { description := some (some "New text") } 5
    entA (some "New text") (by decide) rfl rfl rfl rfl rfl (by decide)

/-- C6 (counterexample): the search term is interpolated unescaped into the
LIKE pattern `%term%`, so `_` (and `%`) act as wildcards rather than literal
characters: searching for the non-empty term "x_z" returns the entity named
"xyz", which does not contain "x_z" as a (case-insensitive) substring,
refuting "returns exactly the entities whose name or name_nepali contains the
term as a case-insensitive substring". -/
theorem list_entities_search_wildcard :
    list_entities { entities := [entXyz], relationships := [] } 0 100 none (some "x_z")
      = Except.ok [entXyz]
    ∧ specSearchMatch entXyz "x_z" = false := by
  decide

/-- C6 (amended): for every non-empty search term containing no LIKE
wildcard or escape character (`%`, `_` or backslash), the entity list
operation — over a window covering the whole store — returns exactly the
entities whose `name` or `name_nepali` contains the term as a
case-insensitive substring (OR semantics, a NULL `name_nepali` never
matching), and it returns an empty sequence rather than raising when nothing
matches; a term containing `%`, `_` or a backslash is instead interpreted as
a LIKE pattern with PostgreSQL's default backslash escape. -/
theorem list_entities_search_substring :
    ∀ (db : DB) (t : String) (limit : Int),
      (∀ c ∈ lowerL t.data, c ≠ '%' ∧ c ≠ '_' ∧ c ≠ '\\') →
      t.isEmpty = false →
      1 ≤ limit → limit ≤ 1000 →
      db.entities.length ≤ limit.toNat →
      ∃ l, list_entities db 0 limit none (some t) = Except.ok l
        ∧ ∀ e, e ∈ l ↔ (e ∈ db.entities ∧ specSearchMatch e t = true) := by
  intro db t limit hw he h1 h2 hlen
  unfold list_entities
  rw [if_pos ⟨le_refl 0, h1, h2⟩]
  simp only [he, Bool.false_eq_true, if_false]
  refine ⟨_, rfl, ?_⟩
  intro e
  have hlen2 : (sortDesc (fun e => e.created_at)
      (db.entities.filter (fun e => entityMatchesSearch e t))).length ≤ limit.toNat := by
    rw [length_sortDesc]
    exact le_trans (List.length_filter_le _ _) hlen
  rw [show ((0 : Int).toNat) = 0 from rfl, List.drop_zero, List.take_of_length_le hlen2]
  rw [mem_sortDesc, List.mem_filter]
  rw [entityMatchesSearch_eq_spec e t hw]

/-- C6 witness: the amended search theorem applied to the concrete store
`dbRam` with the wildcard-free term "ram". -/
theorem list_entities_search_substring_witness :
    ∃ l, list_entities dbRam 0 100 none (some "ram") = Except.ok l
      ∧ ∀ e, e ∈ l ↔ (e ∈ dbRam.entities ∧ specSearchMatch e "ram" = true) :=
  list_entities_search_substring dbRam "ram" 100 (by decide) (by decide)
    (by decide) (by decide) (by decide)
